import Mathlib

/-
Verification of the contract-monitoring pipeline:
a shallow embedding of the Python sources (contrato_monitor.py,
shared/aws_s3_helper.py, contract_signing_api.py,
shared/google_sheets_helper.py, lambda-webhook/lambda_handler.py)
over lists of characters, with theorems settling the specification
claims about identity extraction, the polling/processing loop,
the retry policy, the cache, and the status-update operation.
-/

namespace DocusignUra



/-- Python strings are modelled as lists of characters. -/
abbrev Str := List Char

/-- Coerce a Lean string literal into the character-list model. -/
def strOf (s : String) : Str := s.toList

/-- Python str.lower() for the ASCII data handled by this system. -/
def pyLower (s : Str) : Str := s.map Char.toLower

/-- Fuel-indexed worker for Python str.replace: scan left to right, and at
each position where old is a prefix of the remainder emit new and skip
past the match. The fuel is an upper bound on the number of steps; the
wrapper passes the length of the string, which always suffices because
every step consumes at least one character (old is nonempty at every call
site in this codebase). -/
def pyReplaceFuel : Nat → Str → Str → Str → Str
  | 0, s, _, _ => s
  | _ + 1, [], _, _ => []
  | fuel + 1, c :: rest, old, new =>
    if old ≠ [] ∧ old.isPrefixOf (c :: rest) then
      new ++ pyReplaceFuel fuel ((c :: rest).drop old.length) old new
    else
      c :: pyReplaceFuel fuel rest old new

/-- Python s.replace(old, new) for nonempty old. -/
def pyReplace (s old new : Str) : Str := pyReplaceFuel s.length s old new

/-- Python s.rsplit(sep, 1) when sep occurs in s: the pair of the part
before the last occurrence of sep and the part after it. Returns none
when sep does not occur (the sources always guard the call with an
occurrence test). -/
def rsplitLast (sep : Char) : Str → Option (Str × Str)
  | [] => none
  | c :: rest =>
    match rsplitLast sep rest with
    | some (a, b) => some (c :: a, b)
    | none => if c = sep then some ([], rest) else none

/-- Python str.title() restricted to the alphabetic/separator data of this
system: the first letter of every run of letters is uppercased and the
following letters are lowercased. The boolean records whether the
previous character was a letter. -/
def pyTitleAux : Bool → Str → Str
  | _, [] => []
  | prevAlpha, c :: rest =>
    if c.isAlpha then
      (if prevAlpha then c.toLower else c.toUpper) :: pyTitleAux true rest
    else
      c :: pyTitleAux false rest

/-- Python str.title(). -/
def pyTitle (s : Str) : Str := pyTitleAux false s

/-- Python str.strip(): drop leading and trailing whitespace. -/
def pyStrip (s : Str) : Str :=
  ((s.dropWhile Char.isWhitespace).reverse.dropWhile Char.isWhitespace).reverse

/-- The contracts folder from AWS_CONFIG in shared/jwt_config.py. -/
def contractsFolder : Str := strOf "contratos-gerados/"

/-- The literal ".pdf" stripped from object keys. -/
def dotPdfStr : Str := strOf ".pdf"

/-- aws_s3_helper.py line 134: strip the folder and the ".pdf" extension
from an object key (Python replace removes every occurrence). -/
def stripKey (folderPfx key : Str) : Str :=
  pyReplace (pyReplace key folderPfx []) dotPdfStr []

/-- The identity extractor of S3Helper.get_latest_contract
(aws_s3_helper.py lines 133-167), applied to one object key: split the
stripped filename at the last underscore into a name part and an email
part; the name gets hyphens replaced by spaces and is title-cased; the
email part gets underscores replaced by dots and, when no at-sign is
present but a hyphen is, an at-sign substituted for the last hyphen.
Filenames with no underscore yield (none, none). -/
def extractIdentity (folderPfx key : Str) : Option Str × Option Str :=
  let filename := stripKey folderPfx key
  if '_' ∈ filename then
    match rsplitLast '_' filename with
    | some (namePart, emailPart) =>
      let extractedName := pyTitle (pyReplace namePart (strOf "-") (strOf " "))
      let e0 := pyReplace emailPart (strOf "_") (strOf ".")
      let extractedEmail :=
        if '@' ∈ e0 then e0
        else if '-' ∈ e0 then
          match rsplitLast '-' e0 with
          | some (p, q) => p ++ '@' :: q
          | none => e0
        else e0
      (some extractedName, some extractedEmail)
    | none => (none, none)
  else (none, none)

/-- One entry of the S3 listing (aws_s3_helper.py lines 55-62): object
key, size and last-modified timestamp (modelled as a comparable Nat). -/
structure SFile where
  key : Str
  size : Nat
  lastModified : Nat
deriving DecidableEq, Repr

/-- A contract candidate as returned by S3Helper.get_latest_contract:
a listing entry together with the optionally extracted identity. -/
structure Candidate where
  key : Str
  size : Nat
  lastModified : Nat
  extractedName : Option Str
  extractedEmail : Option Str
deriving DecidableEq, Repr

/-- Python truthiness of an optional string: None and the empty string are
falsy. -/
def truthyOptStr : Option Str → Bool
  | none => false
  | some s => !s.isEmpty

/-- S3Helper.list_files_in_folder: the service-side prefix-scoped listing
followed by the helper's PDF filter (aws_s3_helper.py lines 47-62). The
bucket contents of the current cycle are the objects argument. -/
def list_files_in_folder (objects : List SFile) (folderPfx : Str) : List SFile :=
  objects.filter (fun o =>
    folderPfx.isPrefixOf o.key && dotPdfStr.isSuffixOf (pyLower o.key))

/-- The head of the listing after the stable descending sort on
last_modified (aws_s3_helper.py lines 129-131): the earliest-listed entry
among those with the maximal timestamp. -/
def latestFile : List SFile → Option SFile
  | [] => none
  | f :: fs =>
    some (fs.foldl (fun acc g => if acc.lastModified < g.lastModified then g else acc) f)

/-- S3Helper.get_latest_contract (aws_s3_helper.py lines 111-169): pick the
most recent listed PDF and attach the identity extracted from its key. -/
def get_latest_contract (objects : List SFile) (folderPfx : Str) : Option Candidate :=
  match latestFile (list_files_in_folder objects folderPfx) with
  | none => none
  | some f =>
    let ne := extractIdentity folderPfx f.key
    some { key := f.key, size := f.size, lastModified := f.lastModified,
           extractedName := ne.1, extractedEmail := ne.2 }

/-- The reserved audit sub-folder excluded by the monitor's filter. -/
def auditSub : Str := strOf "audit/"

/-- ContratoMonitor._check_new_contracts (contrato_monitor.py lines
144-174): keep listed keys that end in .pdf, are not in the processed set
and are not under the audit sub-folder. The listing dictionaries never
carry an extracted_name entry, so the hasattr branch of line 158 is never
taken and the code always falls through to get_latest_contract (line 163),
appending the LATEST contract's data — not the triggering file's — when
its extracted name is truthy. -/
def check_new_contracts (objects : List SFile) (folderPfx : Str)
    (processed : List Str) : List Candidate :=
  (list_files_in_folder objects folderPfx).flatMap (fun f =>
    if dotPdfStr.isSuffixOf (pyLower f.key)
        && !(processed.contains f.key)
        && !((folderPfx ++ auditSub).isPrefixOf f.key) then
      match get_latest_contract objects folderPfx with
      | some c => if truthyOptStr c.extractedName then [c] else []
      | none => []
    else [])

/-- Error classification carried by a failure result of
create_signing_envelope (contract_signing_api.py lines 205-239). -/
inductive ErrTag where
  | consentRequired
  | apiError
  | validationError
  | unknownError
deriving DecidableEq, Repr

/-- The result dictionary returned by create_signing_envelope: a success
flag and, on failure, the error classification. -/
structure CreateResult where
  success : Bool
  errTag : Option ErrTag
deriving DecidableEq, Repr

/-- Outcome of one call into the envelope creator as observed by the
monitor: the call either raises or returns a result dictionary. -/
inductive CallOutcome where
  | raises
  | returns (r : CreateResult)
deriving DecidableEq, Repr

/-- Outcome of the best-effort identity refetch (the unguarded
get_latest_contract call at contrato_monitor.py line 186). -/
inductive RefetchOutcome where
  | raises
  | returns (c : Option Candidate)
deriving DecidableEq, Repr

/-- A call outcome counts as a success exactly when it returns a result
whose success flag is set; the retry loop at contrato_monitor.py lines
201-229 inspects nothing else. -/
def isSuccessOutcome : CallOutcome → Bool
  | .raises => false
  | .returns r => r.success

/-- A failed call outcome: an exception or a non-success result of any
error classification. -/
def isFailedOutcome (c : CallOutcome) : Bool := !isSuccessOutcome c

/-- A modelled Python exception. -/
structure PyExn where
  msg : Str
deriving DecidableEq, Repr

/-- The audit record written by _save_processing_result
(contrato_monitor.py lines 238-243): contract info, processing result,
and the monitor version (the processed_at timestamp is outside the model). -/
structure AuditRecord where
  contractKey : Str
  resultSuccess : Bool
  monitorVersion : Str
deriving DecidableEq, Repr

/-- Observable side effects of one monitor cycle, in order. -/
inductive Ev where
  | envCall (key email name cname : Str)
  | sleepSecs (n : Nat)
  | saveResult (filename : Str) (rec : AuditRecord)
  | saveCache (processed : List Str)
deriving DecidableEq, Repr

/-- MONITOR_CONFIG max_retries (contrato_monitor.py line 36). -/
def maxRetries : Nat := 3

/-- MONITOR_CONFIG retry_delay in seconds (contrato_monitor.py line 37). -/
def retryDelay : Nat := 5

/-- The audit filename of _save_processing_result (contrato_monitor.py
line 245): slashes replaced by underscores, .pdf removed, suffixed with
_result.json. -/
def auditFileName (key : Str) : Str :=
  pyReplace (pyReplace key (strOf "/") (strOf "_")) dotPdfStr [] ++ strOf "_result.json"

/-- The retry loop of ContratoMonitor._process_contract
(contrato_monitor.py lines 201-229), recursing on the number of remaining
attempts (initially max_retries): each attempt calls the envelope creator
(event envCall, consuming the next index of the call oracle); a success
result saves the audit record and returns immediately; a failure result or
a raised exception falls through, sleeping retry_delay seconds unless this
was the last attempt. Returns (success flag, next call index, trace). -/
def attemptsFrom (cand : Candidate) (cname : Str) (creator : Nat → CallOutcome) :
    Nat → Nat → Bool × Nat × List Ev
  | k, 0 => (false, k, [])
  | k, remaining + 1 =>
    let callEv := Ev.envCall cand.key (cand.extractedEmail.getD [])
      (cand.extractedName.getD []) cname
    if isSuccessOutcome (creator k) then
      (true, k + 1,
        [callEv, Ev.saveResult (auditFileName cand.key)
          { contractKey := cand.key, resultSuccess := true,
            monitorVersion := strOf "1.0" }])
    else
      let sleeps := if remaining > 0 then [Ev.sleepSecs retryDelay] else []
      let rest := attemptsFrom cand cname creator (k + 1) remaining
      (rest.1, rest.2.1, callEv :: sleeps ++ rest.2.2)

/-- The identity refetch of _process_contract (contrato_monitor.py lines
184-188): only when the candidate's extracted name is missing or falsy the
unguarded get_latest_contract call runs; a raised exception propagates,
fresh data with truthy extracted name replaces the candidate
(dict.update replaces every field), anything else leaves it unchanged. -/
def resolveCand (cand : Candidate) (refetch : RefetchOutcome) :
    Except PyExn Candidate :=
  if truthyOptStr cand.extractedName then .ok cand
  else
    match refetch with
    | .raises => .error { msg := strOf "refetch raised" }
    | .returns none => .ok cand
    | .returns (some fresh) =>
      if truthyOptStr fresh.extractedName then .ok fresh else .ok cand

/-- Result of one Processor invocation, distinguishing the identity-missing
early return (line 195, no stats change) from retry exhaustion (line 232,
error counter incremented). -/
inductive ProcOutcome where
  | success
  | identityMissing
  | exhausted
deriving DecidableEq, Repr

/-- ContratoMonitor._process_contract (contrato_monitor.py lines 176-233):
compute the contract name from the key, resolve identity (refetching when
absent), return identityMissing when name or email is still falsy, and
otherwise run the retry loop. Exceptions of the unguarded refetch
propagate as .error. -/
def process_contract (folderPfx : Str) (cand : Candidate)
    (creator : Nat → CallOutcome) (k : Nat) (refetch : RefetchOutcome) :
    Except PyExn (ProcOutcome × Nat × List Ev) :=
  let cname := stripKey folderPfx cand.key
  match resolveCand cand refetch with
  | .error e => .error e
  | .ok c =>
    if !truthyOptStr c.extractedName || !truthyOptStr c.extractedEmail then
      .ok (.identityMissing, k, [])
    else
      let r := attemptsFrom c cname creator k maxRetries
      .ok (if r.1 then .success else .exhausted, r.2.1, r.2.2)

/-- The run statistics counters of the monitor (contrato_monitor.py lines
54-59; the timestamp fields are outside the model). -/
structure Stats where
  contractsProcessed : Nat
  errors : Nat
deriving DecidableEq, Repr

/-- The monitor's mutable state: the processed set and the statistics. -/
structure MState where
  processedContracts : List Str
  stats : Stats
deriving DecidableEq, Repr

/-- Python set.add on the list-modelled processed set: append the key
unless it is already present. -/
def addProcessed (l : List Str) (k : Str) : List Str :=
  if l.contains k then l else l ++ [k]

/-- The per-candidate state update of the monitor loop: on success the
contracts_processed counter is incremented (contrato_monitor.py line 219),
the key is added to the processed set and the cache is saved immediately
(lines 291-292); retry exhaustion increments the error counter (line 232);
a missing identity changes nothing (line 195). -/
def applyOutcome (st : MState) (cand : Candidate) (o : ProcOutcome) :
    MState × List Ev :=
  match o with
  | .success =>
    let processed := addProcessed st.processedContracts cand.key
    ({ processedContracts := processed,
       stats := { st.stats with
         contractsProcessed := st.stats.contractsProcessed + 1 } },
     [Ev.saveCache processed])
  | .identityMissing => (st, [])
  | .exhausted =>
    ({ st with stats := { st.stats with errors := st.stats.errors + 1 } }, [])

/-- The observable result of one polling cycle. -/
structure CycleOut where
  st : MState
  nextCall : Nat
  trace : List Ev
  aborted : Bool
  outcomes : List ProcOutcome
deriving DecidableEq, Repr

/-- The candidate-dispatch loop of ContratoMonitor.run (contrato_monitor.py
lines 287-292): candidates are processed sequentially; an exception
propagating out of _process_contract is caught only by the whole-loop
handler (lines 307-308), which terminates the loop — modelled by the
aborted flag and by dropping the remaining candidates. -/
def processLoop (folderPfx : Str) (creator : Nat → CallOutcome)
    (refetch : Nat → RefetchOutcome) :
    List Candidate → MState → Nat → Nat → CycleOut
  | [], st, k, _ =>
    { st := st, nextCall := k, trace := [], aborted := false, outcomes := [] }
  | c :: rest, st, k, i =>
    match process_contract folderPfx c creator k (refetch i) with
    | .error _ =>
      { st := st, nextCall := k, trace := [], aborted := true, outcomes := [] }
    | .ok (o, k2, evs) =>
      let su := applyOutcome st c o
      let out := processLoop folderPfx creator refetch rest su.1 k2 (i + 1)
      { st := out.st, nextCall := out.nextCall,
        trace := evs ++ su.2 ++ out.trace,
        aborted := out.aborted, outcomes := o :: out.outcomes }

/-- One cycle of the monitor loop (contrato_monitor.py lines 282-292):
check for new contracts, then dispatch each candidate. -/
def runCycle (objects : List SFile) (folderPfx : Str)
    (creator : Nat → CallOutcome) (refetch : Nat → RefetchOutcome)
    (st : MState) (k : Nat) : CycleOut :=
  processLoop folderPfx creator refetch
    (check_new_contracts objects folderPfx st.processedContracts) st k 0

/-- The keys submitted to the envelope creator in a trace, in order. -/
def envCallsOf : List Ev → List Str
  | [] => []
  | .envCall key _ _ _ :: rest => key :: envCallsOf rest
  | _ :: rest => envCallsOf rest

/-- The audit records written in a trace, with their filenames. -/
def auditsOf : List Ev → List (Str × AuditRecord)
  | [] => []
  | .saveResult f r :: rest => (f, r) :: auditsOf rest
  | _ :: rest => auditsOf rest

/-- The trace of a Processor invocation (empty when it raised). -/
def procTrace : Except PyExn (ProcOutcome × Nat × List Ev) → List Ev
  | .ok (_, _, t) => t
  | .error _ => []

/-- The outcome of a Processor invocation, none when it raised. -/
def procOutcomeOf : Except PyExn (ProcOutcome × Nat × List Ev) → Option ProcOutcome
  | .ok (o, _, _) => some o
  | .error _ => none

/-- The trace produced by a run of the retry loop in which every attempt
fails: one envelope call per attempt, with a retry_delay sleep between
consecutive attempts. -/
def attemptFailTrace (cand : Candidate) (cname : Str) : Nat → List Ev
  | 0 => []
  | r + 1 =>
    Ev.envCall cand.key (cand.extractedEmail.getD [])
        (cand.extractedName.getD []) cname ::
      ((if r > 0 then [Ev.sleepSecs retryDelay] else []) ++ attemptFailTrace cand cname r)

/-- Shared concrete fixtures for the claim evaluations and witnesses. -/
def candAna : Candidate :=
  { key := strOf "contratos-gerados/ana-lima_ana-gmail-com.pdf", size := 100,
    lastModified := 1, extractedName := some (strOf "Ana Lima"),
    extractedEmail := some (strOf "ana-gmail@com") }

def candBea : Candidate :=
  { key := strOf "contratos-gerados/bia-reis_bia-gmail-com.pdf", size := 150,
    lastModified := 4, extractedName := some (strOf "Bia Reis"),
    extractedEmail := some (strOf "bia-gmail@com") }

def fileAna : SFile :=
  { key := strOf "contratos-gerados/ana-lima_ana-gmail-com.pdf", size := 100,
    lastModified := 1 }

def fileMaria : SFile :=
  { key := strOf "contratos-gerados/maria-souza_maria-gmail-com.pdf", size := 200,
    lastModified := 2 }

def creatorAlwaysOk : Nat → CallOutcome :=
  fun _ => .returns { success := true, errTag := none }

def creatorAlwaysApiFail : Nat → CallOutcome :=
  fun _ => .returns { success := false, errTag := some .apiError }

def creatorAlwaysValidationFail : Nat → CallOutcome :=
  fun _ => .returns { success := false, errTag := some .validationError }

def creatorAlwaysConsentFail : Nat → CallOutcome :=
  fun _ => .returns { success := false, errTag := some .consentRequired }

def creatorValThenOk : Nat → CallOutcome := fun n =>
  if n = 0 then .returns { success := false, errTag := some .validationError }
  else .returns { success := true, errTag := none }

/-- The freshly initialized monitor state (contrato_monitor.py lines
51-59): empty processed set and zeroed counters. -/
def initState : MState :=
  { processedContracts := [], stats := { contractsProcessed := 0, errors := 0 } }

/-- The monitor state of the C1 failing scenario: the newest contract
(fileMaria) is already in the persisted processed set, while an older
contract (fileAna) is not. -/
def stWithMaria : MState :=
  { processedContracts := [strOf "contratos-gerados/maria-souza_maria-gmail-com.pdf"],
    stats := { contractsProcessed := 1, errors := 0 } }

/-- The statistics portion of a parsed cache file: either counter may be
absent, in which case dict.update leaves the in-memory value unchanged. -/
structure StatsPart where
  contractsProcessed : Option Nat
  errors : Option Nat
deriving DecidableEq, Repr

/-- A parsed cache file (contrato_monitor.py lines 121-125): both
top-level keys are optional, defaulted by dict.get at load time. -/
structure CacheData where
  processedContracts : Option (List Str)
  stats : Option StatsPart
deriving DecidableEq, Repr

/-- What reading the cache file can yield: the file may be absent, it may
exist but fail to open or parse (any exception), or it parses. -/
inductive CacheFileRead where
  | missing
  | unreadable (e : PyExn)
  | parsed (d : CacheData)
deriving DecidableEq, Repr

/-- Python dict.update of the stats dictionary (contrato_monitor.py line
111): present keys overwrite, absent keys are kept. -/
def statsUpdate (s : Stats) (p : StatsPart) : Stats :=
  { contractsProcessed := p.contractsProcessed.getD s.contractsProcessed,
    errors := p.errors.getD s.errors }

/-- ContratoMonitor._load_cache (contrato_monitor.py lines 104-116): a
missing file leaves the state as initialized; any exception while reading
or parsing is caught and logged, leaving the state as initialized; a
parsed file installs its processed set (default empty) and merges its
stats. -/
def load_cache (st : MState) (file : CacheFileRead) : MState :=
  match file with
  | .missing => st
  | .unreadable _ => st
  | .parsed d =>
    { processedContracts := d.processedContracts.getD [],
      stats := statsUpdate st.stats
        (d.stats.getD { contractsProcessed := none, errors := none }) }

/-- ContratoMonitor._save_cache (contrato_monitor.py lines 118-130): the
in-memory state is serialized and written; a failed write is caught and
logged, and in every case the in-memory state is returned unchanged. -/
def save_cache (st : MState) (writeOk : Bool) : MState × Option CacheData :=
  (st,
   if writeOk then
     some { processedContracts := some st.processedContracts,
            stats := some { contractsProcessed := some st.stats.contractsProcessed,
                            errors := some st.stats.errors } }
   else none)

/-- The header row of the URA_Tickets worksheet, in the column order of
the fallback column map (google_sheets_helper.py lines 125-133). -/
def uraHeader : List Str :=
  [strOf "cliente_nome", strOf "email", strOf "contrato", strOf "link_contrato",
   strOf "data_criacao", strOf "status", strOf "contrato_assinado"]

/-- The column map built from the header row by _map_columns
(google_sheets_helper.py lines 104-110): header cells are stripped and
lowered, later duplicates overwrite earlier ones, columns are 1-indexed. -/
def colMapLookup (hdr : List Str) (name : Str) : Option Nat :=
  ((hdr.enum.filter (fun p => pyLower (pyStrip p.2) == name)).getLast?).map
    (fun p => p.1 + 1)

/-- Overwrite one worksheet cell at 1-indexed (row, col); out-of-range
updates are dropped. -/
def setCell (ws : List (List Str)) (row col : Nat) (v : Str) : List (List Str) :=
  ws.set (row - 1) (((ws.get? (row - 1)).getD []).set (col - 1) v)

/-- GoogleSheetsHelper._find_row_by_name_email (google_sheets_helper.py
lines 293-321): scan the records below the header and return the 1-indexed
row (starting at 2) of the first record whose cliente_nome and email
fields, stripped and lowered, equal the lowered query name and email. -/
def find_row_by_name_email (ws : List (List Str)) (name email : Str) :
    Option Nat :=
  match ws with
  | [] => none
  | hdr :: body =>
    let fieldOf := fun (row : List Str) (f : Str) =>
      match hdr.findIdx? (fun h => h == f) with
      | some i => (row.get? i).getD []
      | none => []
    ((body.enum.find? (fun p =>
        pyLower (pyStrip (fieldOf p.2 (strOf "cliente_nome"))) == pyLower name
        && pyLower (pyStrip (fieldOf p.2 (strOf "email"))) == pyLower email)).map
      (fun p => p.1 + 2))

/-- The SHADOWED first definition of update_contract_status
(google_sheets_helper.py lines 180-214): three parameters, case-insensitive
lookup on both name and email, boolean result, false when no row matches
or the contrato_assinado column is absent; its except-handler returns
false, so it never raises. Being followed in the same class body by a
second def of the same name, this definition is never the one invoked. -/
def update_contract_status_shadowed (ws : List (List Str))
    (name email status : Str) : List (List Str) × Bool :=
  match find_row_by_name_email ws name email with
  | none => (ws, false)
  | some rowNum =>
    match colMapLookup (ws.head?.getD []) (strOf "contrato_assinado") with
    | none => (ws, false)
    | some colNum => (setCell ws rowNum colNum status, true)

/-- gspread worksheet.find: the 1-indexed row of the first cell (scanning
rows in order) exactly equal to the value, none when absent. -/
def findCellRow (ws : List (List Str)) (v : Str) : Option Nat :=
  ((ws.enum.find? (fun p => p.2.contains v)).map (fun p => p.1 + 1))

/-- The EFFECTIVE (later, binding) definition of update_contract_status
(google_sheets_helper.py lines 355-378): two parameters; find the first
cell equal to the email and overwrite column F (column 6) of that row with
the status; when no cell matches, log a warning. Neither branch executes a
return statement, so the Python function returns None in every case —
modelled as the Option Bool value none. Exceptions inside are re-raised
(the except block raises), but no exception arises in this pure model. -/
def update_contract_status (ws : List (List Str)) (email status : Str) :
    List (List Str) × Option Bool :=
  match findCellRow ws email with
  | some rowNum => (setCell ws rowNum 6 status, none)
  | none => (ws, none)

/-- DocuSignWebhookHandler._update_contract_status (lambda-webhook/
lambda_handler.py lines 146-175): on a completion notification the handler
invokes the effective update_contract_status with (email, Assinado) — the
signer name is not passed — and returns the callee result. -/
def webhook_update_contract_status (ws : List (List Str)) (email : Str) :
    List (List Str) × Option Bool :=
  update_contract_status ws email (strOf "Assinado")

/-- Python truthiness of an optional boolean: None is falsy. -/
def pyTruthyOptBool : Option Bool → Bool
  | none => false
  | some b => b

/-- A tracking sheet with one row for Maria Silva whose signature status
is awaited. -/
def sheetMaria : List (List Str) :=
  [uraHeader,
   [strOf "Maria Silva", strOf "a@b.com", strOf "contrato.pdf", strOf "link",
    strOf "2026-01-01", strOf "Enviado", strOf "aguardando"]]

theorem rsplitLast_eq_none {sep : Char} {s : Str} :
    rsplitLast sep s = none ↔ sep ∉ s := by
  induction s with
  | nil => simp [rsplitLast]
  | cons c rest ih =>
    simp only [rsplitLast]
    cases h : rsplitLast sep rest with
    | some p =>
      simp only [List.mem_cons]
      constructor
      · intro hc; exact absurd hc (by simp)
      · intro hc
        have : sep ∉ rest := fun hm => hc (Or.inr hm)
        exact absurd h (by simp [ih.mpr this])
    | none =>
      have hrest : sep ∉ rest := ih.mp h
      by_cases hc : c = sep
      · simp [hc]
      · rw [if_neg hc]
        constructor
        · intro _
          simp only [List.mem_cons, not_or]
          exact ⟨fun hh => hc hh.symm, hrest⟩
        · intro _
          rfl

theorem rsplitLast_spec {sep : Char} {s a b : Str}
    (h : rsplitLast sep s = some (a, b)) : s = a ++ sep :: b ∧ sep ∉ b := by
  induction s generalizing a b with
  | nil => simp [rsplitLast] at h
  | cons c rest ih =>
    simp only [rsplitLast] at h
    cases hr : rsplitLast sep rest with
    | some p =>
      rw [hr] at h
      obtain ⟨a', b'⟩ := p
      have hab := ih (a := a') (b := b') hr
      cases h
      exact ⟨by rw [hab.1]; rfl, hab.2⟩
    | none =>
      rw [hr] at h
      by_cases hc : c = sep
      · subst hc
        rw [if_pos rfl] at h
        cases h
        exact ⟨rfl, rsplitLast_eq_none.mp hr⟩
      · simp [hc] at h

/-- C2 counterexample: the claim asserts that the key
joao-silva_joao.silva-gmail-com.pdf extracts to email joao.silva@gmail.com,
but the code (aws_s3_helper.py lines 145-153) only substitutes an at-sign
for the LAST hyphen and never turns the remaining hyphen into a dot, so the
extracted email is joao.silva-gmail@com, which differs from the claimed
value. -/
theorem C2_counterexample :
    extractIdentity contractsFolder
        (strOf "contratos-gerados/joao-silva_joao.silva-gmail-com.pdf")
      = (some (strOf "Joao Silva"), some (strOf "joao.silva-gmail@com"))
    ∧ strOf "joao.silva-gmail@com" ≠ strOf "joao.silva@gmail.com" := by
  decide

/-- C2 (amended): for the object key joao-silva_joao.silva-gmail-com.pdf
under the contracts prefix, identity extraction produces display name
Joao Silva and email address joao.silva-gmail@com (not joao.silva@gmail.com:
the extractor replaces only the last hyphen by an at-sign). -/
theorem C2_amended_extraction :
    extractIdentity contractsFolder
        (strOf "contratos-gerados/joao-silva_joao.silva-gmail-com.pdf")
      = (some (strOf "Joao Silva"), some (strOf "joao.silva-gmail@com")) := by
  decide

/-- C3 counterexample: the claim asserts that every key whose stripped
filename contains an underscore yields an email containing exactly one
at-sign; for the key joao_gmail.pdf the email part has no at-sign and no
hyphen, so it is passed through unchanged and the extracted email gmail
contains zero at-signs. -/
theorem C3_counterexample :
    (extractIdentity contractsFolder (strOf "contratos-gerados/joao_gmail.pdf")).2
        = some (strOf "gmail")
    ∧ (strOf "gmail").count '@' = 0 := by
  decide

/-- C3 (amended): for every object key whose stripped filename contains at
least one underscore, the extractor splits at the LAST underscore into a
name part and an email part; the name is the name part with hyphens
replaced by spaces and title-cased; the email is the email part with
underscores replaced by dots, unchanged when it already contains an
at-sign or contains no hyphen, and otherwise with an at-sign substituted
for its last hyphen — in which case (no at-sign present, some hyphen
present) the resulting email contains exactly one at-sign. -/
theorem C3_amended_extractor (folderPfx key : Str)
    (h : '_' ∈ stripKey folderPfx key) :
    ∃ namePart emailPart,
      stripKey folderPfx key = namePart ++ '_' :: emailPart ∧
      '_' ∉ emailPart ∧
      (extractIdentity folderPfx key).1
        = some (pyTitle (pyReplace namePart (strOf "-") (strOf " "))) ∧
      ∃ em, (extractIdentity folderPfx key).2 = some em ∧
        ('@' ∈ pyReplace emailPart (strOf "_") (strOf ".") →
          em = pyReplace emailPart (strOf "_") (strOf ".")) ∧
        ('@' ∉ pyReplace emailPart (strOf "_") (strOf ".") →
         '-' ∉ pyReplace emailPart (strOf "_") (strOf ".") →
          em = pyReplace emailPart (strOf "_") (strOf ".")) ∧
        ('@' ∉ pyReplace emailPart (strOf "_") (strOf ".") →
         '-' ∈ pyReplace emailPart (strOf "_") (strOf ".") →
          (∃ p q, pyReplace emailPart (strOf "_") (strOf ".") = p ++ '-' :: q ∧
            '-' ∉ q ∧ em = p ++ '@' :: q) ∧ em.count '@' = 1) := by
  cases hsp : rsplitLast '_' (stripKey folderPfx key) with
  | none => exact absurd h (rsplitLast_eq_none.mp hsp)
  | some pr =>
    obtain ⟨np, ep⟩ := pr
    obtain ⟨hdec, hnotin⟩ := rsplitLast_spec hsp
    have hext : extractIdentity folderPfx key =
        (some (pyTitle (pyReplace np (strOf "-") (strOf " "))),
         some (
          let e0 := pyReplace ep (strOf "_") (strOf ".")
          if '@' ∈ e0 then e0
          else if '-' ∈ e0 then
            match rsplitLast '-' e0 with
            | some (p, q) => p ++ '@' :: q
            | none => e0
          else e0)) := by
      unfold extractIdentity
      rw [if_pos h, hsp]
    refine ⟨np, ep, hdec, hnotin, by rw [hext], ?_⟩
    set e0 := pyReplace ep (strOf "_") (strOf ".") with he0
    by_cases hat : '@' ∈ e0
    · refine ⟨e0, ?_, fun _ => rfl, fun hna _ => absurd hat hna, fun hna _ => absurd hat hna⟩
      rw [hext]
      simp only [if_pos hat]
    · by_cases hhy : '-' ∈ e0
      · cases hsp2 : rsplitLast '-' e0 with
        | none => exact absurd hhy (rsplitLast_eq_none.mp hsp2)
        | some pr2 =>
          obtain ⟨p, q⟩ := pr2
          obtain ⟨hdec2, hnotin2⟩ := rsplitLast_spec hsp2
          refine ⟨p ++ '@' :: q, ?_, fun hc => absurd hc hat, fun _ hc => absurd hhy hc,
            fun _ _ => ⟨⟨p, q, hdec2, hnotin2, rfl⟩, ?_⟩⟩
          · rw [hext]
            simp only [if_neg hat, if_pos hhy, hsp2]
          · have hp : '@' ∉ p := fun hc => hat (by rw [hdec2]; exact List.mem_append_left _ hc)
            have hq : '@' ∉ q := fun hc =>
              hat (by rw [hdec2]; exact List.mem_append_right _ (List.mem_cons_of_mem _ hc))
            simp [List.count_append, List.count_cons, List.count_eq_zero.mpr hp,
              List.count_eq_zero.mpr hq]
      · refine ⟨e0, ?_, fun hc => absurd hc hat, fun _ _ => rfl, fun _ hc => absurd hc hhy⟩
        rw [hext]
        simp only [if_neg hat, if_neg hhy]

/-- Witness for C3: the amended extractor theorem applied to the concrete
key ana-lima_ana-gmail-com.pdf. -/
theorem C3_witness :
    '_' ∈ stripKey contractsFolder (strOf "contratos-gerados/ana-lima_ana-gmail-com.pdf")
    ∧ ∃ namePart emailPart,
      stripKey contractsFolder (strOf "contratos-gerados/ana-lima_ana-gmail-com.pdf")
        = namePart ++ '_' :: emailPart ∧
      '_' ∉ emailPart ∧
      (extractIdentity contractsFolder
        (strOf "contratos-gerados/ana-lima_ana-gmail-com.pdf")).1
        = some (pyTitle (pyReplace namePart (strOf "-") (strOf " "))) ∧
      ∃ em, (extractIdentity contractsFolder
        (strOf "contratos-gerados/ana-lima_ana-gmail-com.pdf")).2 = some em ∧
        ('@' ∈ pyReplace emailPart (strOf "_") (strOf ".") →
          em = pyReplace emailPart (strOf "_") (strOf ".")) ∧
        ('@' ∉ pyReplace emailPart (strOf "_") (strOf ".") →
         '-' ∉ pyReplace emailPart (strOf "_") (strOf ".") →
          em = pyReplace emailPart (strOf "_") (strOf ".")) ∧
        ('@' ∉ pyReplace emailPart (strOf "_") (strOf ".") →
         '-' ∈ pyReplace emailPart (strOf "_") (strOf ".") →
          (∃ p q, pyReplace emailPart (strOf "_") (strOf ".") = p ++ '-' :: q ∧
            '-' ∉ q ∧ em = p ++ '@' :: q) ∧ em.count '@' = 1) :=
  ⟨by decide, C3_amended_extractor _ _ (by decide)⟩

/-- C4 (confirmed): for every object key whose stripped filename contains
no underscore, the extractor returns absent name and absent email; in this
total embedding the extractor is a function, so no exception can be
raised, and absence is its only error signal. -/
theorem C4_no_separator_absent (folderPfx key : Str)
    (h : '_' ∉ stripKey folderPfx key) :
    extractIdentity folderPfx key = (none, none) := by
  unfold extractIdentity
  rw [if_neg h]

/-- Witness for C4: a key whose filename has no underscore yields absent
name and email. -/
theorem C4_witness :
    '_' ∉ stripKey contractsFolder (strOf "contratos-gerados/contrato.pdf")
    ∧ extractIdentity contractsFolder (strOf "contratos-gerados/contrato.pdf")
        = (none, none) :=
  ⟨by decide, C4_no_separator_absent _ _ (by decide)⟩

theorem envCallsOf_append (xs ys : List Ev) :
    envCallsOf (xs ++ ys) = envCallsOf xs ++ envCallsOf ys := by
  induction xs with
  | nil => rfl
  | cons x rest ih => cases x <;> simp [envCallsOf, ih]

theorem auditsOf_append (xs ys : List Ev) :
    auditsOf (xs ++ ys) = auditsOf xs ++ auditsOf ys := by
  induction xs with
  | nil => rfl
  | cons x rest ih => cases x <;> simp [auditsOf, ih]

theorem attemptsFrom_all_fail (cand : Candidate) (cname : Str)
    (creator : Nat → CallOutcome) :
    ∀ r k, (∀ i, i < r → isFailedOutcome (creator (k + i)) = true) →
      attemptsFrom cand cname creator k r
        = (false, k + r, attemptFailTrace cand cname r) := by
  intro r
  induction r with
  | zero =>
    intro k _
    simp [attemptsFrom, attemptFailTrace]
  | succ r ih =>
    intro k hf
    have h0 : isFailedOutcome (creator k) = true := by
      simpa using hf 0 (Nat.succ_pos r)
    have hs : isSuccessOutcome (creator k) = false := by
      simpa [isFailedOutcome] using h0
    have hshift : ∀ i, i < r → isFailedOutcome (creator (k + 1 + i)) = true := by
      intro i hi
      have := hf (i + 1) (by omega)
      simpa [show k + (i + 1) = k + 1 + i by omega] using this
    simp only [attemptsFrom, hs, Bool.false_eq_true, if_false]
    rw [ih (k + 1) hshift]
    have hk : k + 1 + r = k + (r + 1) := by omega
    rw [hk]
    rfl

theorem attemptsFrom_succeeds (cand : Candidate) (cname : Str)
    (creator : Nat → CallOutcome) :
    ∀ j r k, j < r → (∀ i, i < j → isFailedOutcome (creator (k + i)) = true) →
      isSuccessOutcome (creator (k + j)) = true →
      (attemptsFrom cand cname creator k r).1 = true ∧
      (envCallsOf (attemptsFrom cand cname creator k r).2.2).length = j + 1 := by
  intro j
  induction j with
  | zero =>
    intro r k hr _ hsucc
    obtain ⟨r', rfl⟩ : ∃ r', r = r' + 1 := ⟨r - 1, by omega⟩
    have hsucc' : isSuccessOutcome (creator k) = true := by simpa using hsucc
    simp [attemptsFrom, hsucc', envCallsOf]
  | succ j ih =>
    intro r k hr hf hsucc
    obtain ⟨r', rfl⟩ : ∃ r', r = r' + 1 := ⟨r - 1, by omega⟩
    have h0 : isSuccessOutcome (creator k) = false := by
      have := hf 0 (Nat.succ_pos j)
      simpa [isFailedOutcome] using this
    have hshift : ∀ i, i < j → isFailedOutcome (creator (k + 1 + i)) = true := by
      intro i hi
      have := hf (i + 1) (by omega)
      simpa [show k + (i + 1) = k + 1 + i by omega] using this
    have hsucc' : isSuccessOutcome (creator (k + 1 + j)) = true := by
      simpa [show k + (j + 1) = k + 1 + j by omega] using hsucc
    have ihr := ih r' (k + 1) (by omega) hshift hsucc'
    simp only [attemptsFrom, h0, Bool.false_eq_true, if_false]
    refine ⟨ihr.1, ?_⟩
    simp only [envCallsOf, List.cons_append, envCallsOf_append]
    by_cases hr0 : r' > 0 <;>
      simp [hr0, envCallsOf, ihr.2]

theorem attemptsFrom_audits (cand : Candidate) (cname : Str)
    (creator : Nat → CallOutcome) : ∀ r k,
    auditsOf (attemptsFrom cand cname creator k r).2.2
      = if (attemptsFrom cand cname creator k r).1 = true then
          [(auditFileName cand.key,
            { contractKey := cand.key, resultSuccess := true,
              monitorVersion := strOf "1.0" })]
        else [] := by
  intro r
  induction r with
  | zero =>
    intro k
    simp [attemptsFrom, auditsOf]
  | succ r ih =>
    intro k
    by_cases hs : isSuccessOutcome (creator k) = true
    · simp [attemptsFrom, hs, auditsOf]
    · have hs' : isSuccessOutcome (creator k) = false := by
        simpa using hs
      simp only [attemptsFrom, hs', Bool.false_eq_true, if_false]
      rw [auditsOf_append]
      have hsl : auditsOf (if r > 0 then [Ev.sleepSecs retryDelay] else []) = [] := by
        by_cases hr0 : r > 0 <;> simp [hr0, auditsOf]
      simp only [auditsOf, List.cons_append]
      rw [hsl, List.nil_append, ih (k + 1)]

theorem envCallsOf_attemptFailTrace (cand : Candidate) (cname : Str) :
    ∀ r, (envCallsOf (attemptFailTrace cand cname r)).length = r := by
  intro r
  induction r with
  | zero => rfl
  | succ r ih =>
    simp only [attemptFailTrace, envCallsOf]
    by_cases hr : r > 0 <;> simp [hr, envCallsOf, envCallsOf_append, ih]

/-- Unfolding of a Processor invocation whose candidate already carries a
truthy extracted name and email (the only kind the monitor loop
dispatches): the refetch is skipped and the retry loop decides the
outcome. -/
theorem process_contract_truthy (folderPfx : Str) (cand : Candidate)
    (creator : Nat → CallOutcome) (k : Nat) (refetch : RefetchOutcome)
    (hn : truthyOptStr cand.extractedName = true)
    (he : truthyOptStr cand.extractedEmail = true) :
    process_contract folderPfx cand creator k refetch
      = .ok
        (if (attemptsFrom cand (stripKey folderPfx cand.key) creator k maxRetries).1
          then .success else .exhausted,
         (attemptsFrom cand (stripKey folderPfx cand.key) creator k maxRetries).2.1,
         (attemptsFrom cand (stripKey folderPfx cand.key) creator k maxRetries).2.2) := by
  unfold process_contract resolveCand
  rw [if_pos hn]
  simp [hn, he]

/-- With a creator that never succeeds, a Processor invocation never
reports success. -/
theorem process_contract_no_success (creator : Nat → CallOutcome)
    (hfail : ∀ n, isFailedOutcome (creator n) = true)
    (folderPfx : Str) (cand : Candidate) (k : Nat) (refetch : RefetchOutcome)
    (o : ProcOutcome) (k2 : Nat) (evs : List Ev)
    (hpc : process_contract folderPfx cand creator k refetch = .ok (o, k2, evs)) :
    o ≠ .success := by
  unfold process_contract at hpc
  cases hres : resolveCand cand refetch with
  | error e =>
    rw [hres] at hpc
    cases hpc
  | ok c =>
    rw [hres] at hpc
    dsimp only at hpc
    by_cases hie : (!truthyOptStr c.extractedName || !truthyOptStr c.extractedEmail) = true
    · rw [if_pos hie] at hpc
      simp only [Except.ok.injEq, Prod.mk.injEq] at hpc
      rw [← hpc.1]
      simp
    · rw [if_neg hie] at hpc
      rw [attemptsFrom_all_fail c (stripKey folderPfx cand.key) creator maxRetries k
        (fun i _ => hfail (k + i))] at hpc
      simp only [Except.ok.injEq, Prod.mk.injEq] at hpc
      rw [← hpc.1]
      simp

/-- With a creator that never succeeds, the candidate-dispatch loop never
adds a key to the processed set. -/
theorem processLoop_all_fail_processed (creator : Nat → CallOutcome)
    (hfail : ∀ n, isFailedOutcome (creator n) = true)
    (folderPfx : Str) (refetch : Nat → RefetchOutcome) :
    ∀ cands st k i,
      (processLoop folderPfx creator refetch cands st k i).st.processedContracts
        = st.processedContracts := by
  intro cands
  induction cands with
  | nil => intro st k i; rfl
  | cons c rest ih =>
    intro st k i
    simp only [processLoop]
    cases hpc : process_contract folderPfx c creator k (refetch i) with
    | error e => rfl
    | ok res =>
      obtain ⟨o, k2, evs⟩ := res
      have hns := process_contract_no_success creator hfail folderPfx c k (refetch i)
        o k2 evs hpc
      cases o with
      | success => exact absurd rfl hns
      | identityMissing => simpa [applyOutcome] using ih _ k2 (i + 1)
      | exhausted => simpa [applyOutcome] using ih _ k2 (i + 1)

/-- C5 (confirmed): against an envelope creator whose every call fails
(any non-success result or a raised exception), one Processor invocation
on a candidate with resolved identity makes exactly 3 envelope-creation
attempts with a 5-second sleep between consecutive attempts and returns
the exhausted (failure) outcome with the call counter advanced by 3; and
the monitor cycle that dispatched it leaves the processed set unchanged
(the key is not added by the caller, contrato_monitor.py lines 288-291). -/
theorem C5_retry_bound (creator : Nat → CallOutcome)
    (hfail : ∀ n, isFailedOutcome (creator n) = true) :
    (∀ folderPfx cand k refetch,
        truthyOptStr cand.extractedName = true →
        truthyOptStr cand.extractedEmail = true →
        process_contract folderPfx cand creator k refetch
          = .ok (.exhausted, k + 3,
              [Ev.envCall cand.key (cand.extractedEmail.getD [])
                 (cand.extractedName.getD []) (stripKey folderPfx cand.key),
               Ev.sleepSecs 5,
               Ev.envCall cand.key (cand.extractedEmail.getD [])
                 (cand.extractedName.getD []) (stripKey folderPfx cand.key),
               Ev.sleepSecs 5,
               Ev.envCall cand.key (cand.extractedEmail.getD [])
                 (cand.extractedName.getD []) (stripKey folderPfx cand.key)]))
    ∧ (∀ objects folderPfx refetch st k,
        (runCycle objects folderPfx creator refetch st k).st.processedContracts
          = st.processedContracts) := by
  constructor
  · intro folderPfx cand k refetch hn he
    rw [process_contract_truthy folderPfx cand creator k refetch hn he]
    rw [attemptsFrom_all_fail cand (stripKey folderPfx cand.key) creator maxRetries k
      (fun i _ => hfail (k + i))]
    rfl
  · intro objects folderPfx refetch st k
    exact processLoop_all_fail_processed creator hfail folderPfx refetch _ st k 0

/-- Witness for C5: a creator that always returns an api_error failure
makes exactly three attempts with 5-second sleeps, returns exhausted, and
a cycle over a bucket with that candidate's file leaves the processed set
empty. -/
theorem C5_witness :
    (∀ n, isFailedOutcome (creatorAlwaysApiFail n) = true)
    ∧ process_contract contractsFolder candAna creatorAlwaysApiFail 0 (.returns none)
        = .ok (.exhausted, 0 + 3,
            [Ev.envCall candAna.key (candAna.extractedEmail.getD [])
               (candAna.extractedName.getD []) (stripKey contractsFolder candAna.key),
             Ev.sleepSecs 5,
             Ev.envCall candAna.key (candAna.extractedEmail.getD [])
               (candAna.extractedName.getD []) (stripKey contractsFolder candAna.key),
             Ev.sleepSecs 5,
             Ev.envCall candAna.key (candAna.extractedEmail.getD [])
               (candAna.extractedName.getD []) (stripKey contractsFolder candAna.key)])
    ∧ (runCycle [fileAna] contractsFolder creatorAlwaysApiFail
         (fun _ => .returns none) initState 0).st.processedContracts
        = initState.processedContracts :=
  ⟨fun _ => rfl,
   (C5_retry_bound creatorAlwaysApiFail (fun _ => rfl)).1 contractsFolder candAna 0
     (.returns none) rfl rfl,
   (C5_retry_bound creatorAlwaysApiFail (fun _ => rfl)).2 [fileAna] contractsFolder
     (fun _ => .returns none) initState 0⟩

/-- C6 counterexample: the claim asserts that a Processor invocation does
not retry after a validation error or a consent/authorization error; but
the retry loop (contrato_monitor.py lines 201-229) inspects only the
success flag, so with a creator that always reports a validation error —
or always reports consent_required — three envelope-creation calls are
made instead of the single call the claim allows. -/
theorem C6_counterexample :
    (envCallsOf (procTrace (process_contract contractsFolder candAna
        creatorAlwaysValidationFail 0 (.returns none)))).length = 3
    ∧ (envCallsOf (procTrace (process_contract contractsFolder candAna
        creatorAlwaysConsentFail 0 (.returns none)))).length = 3 := by
  decide

/-- C6 (amended): the Processor's retry policy is classification-blind: a
failed attempt — whether it returned a validation error, a consent error,
any other non-success result, or raised — is always followed by a further
attempt until the 3-attempt cap, and only a success result stops the loop
early: when the first j attempts fail (j < 3) and attempt j succeeds, the
invocation reports success after exactly j+1 calls; when all 3 fail it
reports exhausted after exactly 3 calls. -/
theorem C6_amended (creator : Nat → CallOutcome) (folderPfx : Str)
    (cand : Candidate) (k : Nat) (refetch : RefetchOutcome)
    (hn : truthyOptStr cand.extractedName = true)
    (he : truthyOptStr cand.extractedEmail = true) :
    ((∀ i, i < 3 → isFailedOutcome (creator (k + i)) = true) →
        procOutcomeOf (process_contract folderPfx cand creator k refetch)
          = some .exhausted
        ∧ (envCallsOf (procTrace (process_contract folderPfx cand creator k
            refetch))).length = 3)
    ∧ (∀ j, j < 3 → (∀ i, i < j → isFailedOutcome (creator (k + i)) = true) →
        isSuccessOutcome (creator (k + j)) = true →
        procOutcomeOf (process_contract folderPfx cand creator k refetch)
          = some .success
        ∧ (envCallsOf (procTrace (process_contract folderPfx cand creator k
            refetch))).length = j + 1) := by
  rw [process_contract_truthy folderPfx cand creator k refetch hn he]
  constructor
  · intro hfails
    rw [attemptsFrom_all_fail cand (stripKey folderPfx cand.key) creator maxRetries k
      (fun i hi => hfails i hi)]
    refine ⟨rfl, ?_⟩
    simpa [procTrace] using envCallsOf_attemptFailTrace cand (stripKey folderPfx cand.key) 3
  · intro j hj hf hsucc
    have hs := attemptsFrom_succeeds cand (stripKey folderPfx cand.key) creator j
      maxRetries k hj hf hsucc
    rw [if_pos hs.1]
    exact ⟨rfl, by simpa [procTrace] using hs.2⟩

/-- Witness for C6: a creator whose first call returns a validation error
and whose second call succeeds demonstrates the amended behavior — the
validation error is retried and the invocation succeeds after exactly two
calls. -/
theorem C6_witness :
    procOutcomeOf (process_contract contractsFolder candBea creatorValThenOk 0
        (.returns none)) = some .success
    ∧ (envCallsOf (procTrace (process_contract contractsFolder candBea
        creatorValThenOk 0 (.returns none)))).length = 1 + 1 :=
  (C6_amended creatorValThenOk contractsFolder candBea 0 (.returns none) rfl rfl).2
    1 (by omega) (fun i hi => by interval_cases i; rfl) rfl

/-- C9 counterexample: the claim asserts that an audit record is written
regardless of success or failure; but _save_processing_result is invoked
only inside the success branch (contrato_monitor.py line 218), so an
invocation that exhausts its retries writes no audit record at all. -/
theorem C9_counterexample :
    procOutcomeOf (process_contract contractsFolder candBea creatorAlwaysApiFail 0
        (.returns none)) = some .exhausted
    ∧ auditsOf (procTrace (process_contract contractsFolder candBea
        creatorAlwaysApiFail 0 (.returns none))) = [] := by
  decide

/-- C9 (amended): a Processor invocation on a candidate with a truthy
extracted name writes the audit record exactly when it succeeds: on
success exactly one record {contract_info, processing_result,
monitor_version 1.0} is written under the filename derived from the object
key with slashes replaced by underscores and .pdf stripped; on failure
(identity missing or retries exhausted) no audit record is written. -/
theorem C9_amended (folderPfx : Str) (cand : Candidate)
    (creator : Nat → CallOutcome) (k : Nat) (refetch : RefetchOutcome)
    (hn : truthyOptStr cand.extractedName = true) :
    auditsOf (procTrace (process_contract folderPfx cand creator k refetch))
      = if procOutcomeOf (process_contract folderPfx cand creator k refetch)
            = some .success then
          [(auditFileName cand.key,
            { contractKey := cand.key, resultSuccess := true,
              monitorVersion := strOf "1.0" })]
        else [] := by
  by_cases he : truthyOptStr cand.extractedEmail = true
  · rw [process_contract_truthy folderPfx cand creator k refetch hn he]
    have haud := attemptsFrom_audits cand (stripKey folderPfx cand.key) creator
      maxRetries k
    by_cases hr : (attemptsFrom cand (stripKey folderPfx cand.key) creator k
        maxRetries).1 = true
    · simp [procTrace, procOutcomeOf, hr, haud]
    · have hr' : (attemptsFrom cand (stripKey folderPfx cand.key) creator k
          maxRetries).1 = false := by simpa using hr
      simp [procTrace, procOutcomeOf, hr', haud]
  · have he' : truthyOptStr cand.extractedEmail = false := by simpa using he
    unfold process_contract resolveCand
    rw [if_pos hn]
    simp [hn, he', procTrace, procOutcomeOf, auditsOf]

/-- Witness for C9: with a creator that succeeds immediately, the audit
record for candBea is written under the sanitized filename. -/
theorem C9_witness :
    truthyOptStr candAna.extractedName = true
    ∧ auditsOf (procTrace (process_contract contractsFolder candAna
        creatorAlwaysOk 0 (.returns none)))
      = if procOutcomeOf (process_contract contractsFolder candAna creatorAlwaysOk 0
            (.returns none)) = some .success then
          [(auditFileName candAna.key,
            { contractKey := candAna.key, resultSuccess := true,
              monitorVersion := strOf "1.0" })]
        else [] :=
  ⟨rfl, C9_amended contractsFolder candAna creatorAlwaysOk 0 (.returns none) rfl⟩

/-- Every candidate produced by _check_new_contracts has a truthy
extracted name: candidates are only appended under the guard of line 164
of contrato_monitor.py. -/
theorem check_new_contracts_truthy (objects : List SFile) (folderPfx : Str)
    (processed : List Str) :
    ∀ c ∈ check_new_contracts objects folderPfx processed,
      truthyOptStr c.extractedName = true := by
  intro c hc
  unfold check_new_contracts at hc
  rw [List.mem_flatMap] at hc
  obtain ⟨f, _, hcf⟩ := hc
  by_cases hcond : (dotPdfStr.isSuffixOf (pyLower f.key)
      && !(processed.contains f.key)
      && !((folderPfx ++ auditSub).isPrefixOf f.key)) = true
  · rw [if_pos hcond] at hcf
    cases hg : get_latest_contract objects folderPfx with
    | none =>
      rw [hg] at hcf
      dsimp only at hcf
      cases hcf
    | some g =>
      rw [hg] at hcf
      dsimp only at hcf
      by_cases ht : truthyOptStr g.extractedName = true
      · rw [if_pos ht] at hcf
        rw [List.mem_singleton] at hcf
        rw [hcf]
        exact ht
      · rw [if_neg ht] at hcf
        cases hcf
  · rw [if_neg hcond] at hcf
    cases hcf

/-- A Processor invocation on a candidate with a truthy extracted name
always returns a structured outcome, never an exception: the refetch (the
only unguarded collaborator call) is skipped, and every envelope-creator
call is wrapped in the per-attempt handler. -/
theorem process_contract_ok_of_truthy (folderPfx : Str) (cand : Candidate)
    (creator : Nat → CallOutcome) (k : Nat) (refetch : RefetchOutcome)
    (hn : truthyOptStr cand.extractedName = true) :
    ∃ o k2 evs,
      process_contract folderPfx cand creator k refetch = .ok (o, k2, evs) := by
  by_cases he : truthyOptStr cand.extractedEmail = true
  · exact ⟨_, _, _, process_contract_truthy folderPfx cand creator k refetch hn he⟩
  · have he' : truthyOptStr cand.extractedEmail = false := by simpa using he
    refine ⟨.identityMissing, k, [], ?_⟩
    unfold process_contract resolveCand
    rw [if_pos hn]
    simp [hn, he']

/-- The candidate-dispatch loop never aborts and yields one structured
outcome per candidate when every candidate has a truthy extracted name. -/
theorem processLoop_no_abort (folderPfx : Str) (creator : Nat → CallOutcome)
    (refetch : Nat → RefetchOutcome) :
    ∀ cands : List Candidate,
      (∀ c ∈ cands, truthyOptStr c.extractedName = true) →
      ∀ st k i,
        (processLoop folderPfx creator refetch cands st k i).aborted = false
        ∧ (processLoop folderPfx creator refetch cands st k i).outcomes.length
            = cands.length := by
  intro cands
  induction cands with
  | nil =>
    intro _ st k i
    exact ⟨rfl, rfl⟩
  | cons c rest ih =>
    intro htr st k i
    obtain ⟨o, k2, evs, hpc⟩ := process_contract_ok_of_truthy folderPfx c creator k
      (refetch i) (htr c (List.mem_cons_self c rest))
    have ihr := ih (fun d hd => htr d (List.mem_cons_of_mem c hd))
      (applyOutcome st c o).1 k2 (i + 1)
    simp only [processLoop, hpc]
    exact ⟨ihr.1, by simp [ihr.2]⟩

/-- C7 (confirmed): for every bucket listing, every behavior of the
envelope creator (each call may raise or return any result) and every
behavior of the identity refetch, a monitor cycle absorbs each candidate's
errors at that candidate's processing boundary: the cycle is never aborted
and produces exactly one structured outcome per dispatched candidate, so
one candidate's failure neither escapes the loop nor prevents the
remaining candidates (and their persisted progress) from being handled. -/
theorem C7_errors_confined (objects : List SFile) (folderPfx : Str)
    (creator : Nat → CallOutcome) (refetch : Nat → RefetchOutcome)
    (st : MState) (k : Nat) :
    (runCycle objects folderPfx creator refetch st k).aborted = false
    ∧ (runCycle objects folderPfx creator refetch st k).outcomes.length
        = (check_new_contracts objects folderPfx st.processedContracts).length := by
  unfold runCycle
  exact processLoop_no_abort folderPfx creator refetch _
    (check_new_contracts_truthy objects folderPfx st.processedContracts) st k 0

/-- C1 (code bug): evaluation at the failing input. With the newest key
already in the processed set at cycle start and an older unprocessed PDF
present, the cycle re-submits the processed key to the envelope creator:
_check_new_contracts (contrato_monitor.py line 163) appends the data of
get_latest_contract — the newest object — for the unprocessed trigger
file, so the envelope-creation call of the cycle is for exactly the
already-processed key, violating the idempotence invariant the cache is
documented to provide. -/
theorem C1_processed_key_resubmitted :
    stWithMaria.processedContracts.contains fileMaria.key = true
    ∧ envCallsOf (runCycle [fileAna, fileMaria] contractsFolder creatorAlwaysOk
        (fun _ => .returns none) stWithMaria 0).trace = [fileMaria.key] := by
  decide

/-- C10 (confirmed): loading and saving the cache are total operations in
this embedding — every read outcome (absent file, unreadable or
unparseable file) is handled inside load_cache, so startup with a corrupt
or absent cache file proceeds with the empty processed set and the zeroed
default statistics of the freshly initialized state; and a save, whether
the write succeeds or fails, leaves the in-memory state unchanged. -/
theorem C10_cache_load_save_total :
    load_cache initState .missing = initState
    ∧ (∀ e, load_cache initState (.unreadable e) = initState)
    ∧ initState.processedContracts = []
    ∧ initState.stats = { contractsProcessed := 0, errors := 0 }
    ∧ (∀ st w, (save_cache st w).1 = st) :=
  ⟨rfl, fun _ => rfl, rfl, rfl, fun _ _ => rfl⟩

/-- C8 (code bug): evaluation at the failing input. The claim describes
the 3-parameter case-insensitive (name, email) lookup that returns a
boolean — which is exactly the SHADOWED definition, shown here returning
(sheet unchanged, false) when the name does not match. The operation
actually invoked on a completion notification is the later 2-parameter
definition: it ignores the signer name, locates the row by the email cell
alone, overwrites column 6 (the status column, not contrato_assinado),
and returns None — never a boolean — so the webhook wrapper reports
failure even though the sheet was modified. -/
theorem C8_status_update_divergence :
    update_contract_status_shadowed sheetMaria (strOf "Other Person")
        (strOf "a@b.com") (strOf "Assinado") = (sheetMaria, false)
    ∧ (webhook_update_contract_status sheetMaria (strOf "a@b.com")).1
        = [uraHeader,
           [strOf "Maria Silva", strOf "a@b.com", strOf "contrato.pdf",
            strOf "link", strOf "2026-01-01", strOf "Assinado",
            strOf "aguardando"]]
    ∧ (webhook_update_contract_status sheetMaria (strOf "a@b.com")).1 ≠ sheetMaria
    ∧ (webhook_update_contract_status sheetMaria (strOf "a@b.com")).2 = none
    ∧ pyTruthyOptBool
        (webhook_update_contract_status sheetMaria (strOf "a@b.com")).2 = false := by
  decide

end DocusignUra
